import Mathlib

/-!
Shallow embedding of `src/lambda/index.py` (the `simplechat` Lambda handler).

Python JSON values are modelled by the inductive `Json`; Python exceptions by
`Except String` carrying `str(error)`; the outbound HTTP layer
(`urllib.request.urlopen` and its possible failures) by a function
`net : HttpRequest → ApiOutcome` supplied as a parameter; the environment by
`env : Option String` (the value of `NGROK_ENDPOINT`, `none` when unset).
The incoming event is modelled by the fields the code touches: the
`requestContext.authorizer.claims` path and the parse outcome of
`json.loads(event['body'])`.
-/

namespace SimpleChat

/-- A JSON value as produced by `json.loads`.  Object fields keep insertion
order, matching Python dict semantics (and `json.dumps` output order). -/
inductive Json where
  | null : Json
  | bool (b : Bool) : Json
  | num (n : Int) : Json
  | str (s : String) : Json
  | arr (elems : List Json) : Json
  | obj (fields : List (String × Json)) : Json

/-- Python dict key lookup (keys are unique after `json.loads`, so first
match is the dict semantics). -/
def jlookup (k : String) : List (String × Json) → Option Json
  | [] => none
  | (k', v) :: rest => if k' = k then some v else jlookup k rest

/-- Python truthiness of a JSON value: `None`, `False`, `0`, `""`, `[]` and
`{}` are falsy.  Used for `if not external_response:`. -/
def Json.falsy : Json → Bool
  | .null => true
  | .bool b => !b
  | .num n => n == 0
  | .str s => s == ""
  | .arr l => l.isEmpty
  | .obj l => l.isEmpty

/-- The Python class name of a value, used to render `AttributeError` /
`TypeError` messages faithfully. -/
def pyTypeName : Json → String
  | .null => "NoneType"
  | .bool _ => "bool"
  | .num _ => "int"
  | .str _ => "str"
  | .arr _ => "list"
  | .obj _ => "dict"

/-- `str(TypeError)` raised by `value['message']` when `value` is not a dict. -/
def indexTypeErrorMsg : Json → String
  | .arr _ => "list indices must be integers or slices, not str"
  | .str _ => "string indices must be integers"
  | j => "'" ++ pyTypeName j ++ "' object is not subscriptable"

/-- `str(AttributeError)` raised by `conversation_history.copy()` /
`messages.append(...)` when `conversationHistory` is not a list (a dict has
`.copy` but no `.append`; other types lack `.copy`). -/
def historyTypeErrorMsg : Json → String
  | .obj _ => "'dict' object has no attribute 'append'"
  | j => "'" ++ pyTypeName j ++ "' object has no attribute 'copy'"

/-! ## The outbound HTTP request (`call_external_api`, lines 26–72) -/

/-- The single outbound request built by `call_external_api`. -/
structure HttpRequest where
  url : String
  method : String
  headers : List (String × String)
  payload : Json

/-- Outcome of `urllib.request.urlopen` on a request, including the decode /
parse of the response body.
* `ok (some j)`   — 2xx, body read, decoded and parsed as JSON `j`;
* `ok none`       — 2xx but the body is not valid JSON (`json.JSONDecodeError`);
* `httpError c b` — non-2xx status `c` (`urllib.error.HTTPError`); `b` is the
  error body text, `none` when reading it raised;
* `urlError r`    — connection-level failure (`urllib.error.URLError`) with
  reason `r`;
* `unexpected`    — any other exception inside the `try` block. -/
inductive ApiOutcome where
  | ok (parsed : Option Json) : ApiOutcome
  | httpError (code : Nat) (body : Option String) : ApiOutcome
  | urlError (reason : String) : ApiOutcome
  | unexpected : ApiOutcome

/-- Python `s.rstrip('/')`: remove all trailing `'/'` characters. -/
def pyRstripSlash (s : String) : String :=
  ((s.toList.reverse.dropWhile (fun c => c = '/')).reverse).asString

/-- The request `call_external_api` constructs (lines 32–38):
`f"{api_endpoint_base.rstrip('/')}/generate"`, method POST, header
`Content-Type: application/json`, payload `{'message': 'From Lambda'}`. -/
def externalRequest (base : String) : HttpRequest :=
  { url := pyRstripSlash base ++ "/generate"
    method := "POST"
    headers := [("Content-Type", "application/json")]
    payload := Json.obj [("message", Json.str "From Lambda")] }

/-- `str` of the `ValueError` raised when `NGROK_ENDPOINT` is unset/empty. -/
def configMissingMsg : String :=
  "API エンドポイントが Lambda 環境変数に設定されていません。"

/-- Message of the exception raised on a non-2xx response (line 58). -/
def httpFailureMsg (code : Nat) (body : Option String) : String :=
  "外部API呼び出しに失敗しました (HTTP " ++ toString code ++ "): " ++
    body.getD "(レスポンスボディの読み取りに失敗)"

/-- Message of the exception raised on a connection failure (line 62). -/
def connectFailureMsg (reason : String) : String :=
  "外部APIへの接続に失敗しました: " ++ reason

/-- Message of the exception raised when the 2xx body is not JSON (line 66). -/
def invalidJsonMsg : String := "外部APIのレスポンスが無効なJSON形式です。"

/-- Message of the exception raised by the generic `except Exception` (line 70). -/
def unexpectedMsg : String := "外部API呼び出し中に予期しないエラーが発生しました。"

/-- `call_external_api()` (lines 26–72).  Reads `NGROK_ENDPOINT` (`env`);
`if not api_endpoint_base:` raises the configuration error (covers both
unset and empty string).  Otherwise it issues the single request
`externalRequest base` and classifies the outcome.  Note the function takes
no message argument: the payload is the fixed `{'message': 'From Lambda'}`. -/
def call_external_api (env : Option String) (net : HttpRequest → ApiOutcome) :
    Except String Json :=
  match env with
  | none => .error configMissingMsg
  | some base =>
    if base = "" then .error configMissingMsg
    else
      match net (externalRequest base) with
      | .ok (some j) => .ok j
      | .ok none => .error invalidJsonMsg
      | .httpError code body => .error (httpFailureMsg code body)
      | .urlError reason => .error (connectFailureMsg reason)
      | .unexpected => .error unexpectedMsg

/-! ## The handler (`lambda_handler`, lines 76–129) -/

/-- The incoming event, restricted to the fields the code reads.

`authorizer` models the `requestContext.authorizer` path:
* `none`            — no `requestContext` key, or no `authorizer` key in it
  (the `if` on line 79 is false, the claims block is skipped);
* `some none`       — `authorizer` present but without a `claims` key
  (line 80 raises `KeyError('claims')`);
* `some (some j)`   — `claims` present with value `j`.

`body` models `event['body']` together with the outcome of
`json.loads` on it:
* `none`            — no `body` key (`KeyError('body')`);
* `some (.error e)` — `json.loads` raised, `e` its message;
* `some (.ok j)`    — the body parsed to `j`. -/
structure Event where
  authorizer : Option (Option Json)
  body : Option (Except String Json)

/-- The returned value: `statusCode`, `headers` and the response body.  The
body is kept as the JSON value passed to `json.dumps` (field order is the
dict insertion order, which `json.dumps` preserves). -/
structure HandlerResult where
  statusCode : Nat
  headers : List (String × String)
  body : Json

/-- Lines 79–81: the claims block.  Succeeds silently when the path is
absent (guard false) or when `claims` is a dict (values only printed);
raises when `claims` is missing or is not a dict (`.get` lookup fails). -/
def readClaims : Option (Option Json) → Except String Unit
  | none => .ok ()
  | some none => .error "'claims'"
  | some (some (Json.obj _)) => .ok ()
  | some (some j) => .error ("'" ++ pyTypeName j ++ "' object has no attribute 'get'")

/-- Line 83: `json.loads(event['body'])`. -/
def readBody : Option (Except String Json) → Except String Json
  | none => .error "'body'"
  | some (.error e) => .error e
  | some (.ok j) => .ok j

/-- Line 84: `message = body['message']` on a parsed dict;
`str(KeyError('message'))` is `"'message'"`. -/
def getMessage (kvs : List (String × Json)) : Except String Json :=
  match jlookup "message" kvs with
  | some v => .ok v
  | none => .error "'message'"

/-- Lines 85, 89: `conversation_history = body.get('conversationHistory', [])`
followed by `.copy()` and `.append`, which only succeed on a list. -/
def getHistory (kvs : List (String × Json)) : Except String (List Json) :=
  match jlookup "conversationHistory" kvs with
  | none => .ok []
  | some (Json.arr l) => .ok l
  | some j => .error (historyTypeErrorMsg j)

/-- Line 96: `external_response.get('response', 'Default response from API')`;
raises `AttributeError` when the parsed response is not a dict. -/
def getAssistant : Json → Except String Json
  | .obj kvs => .ok ((jlookup "response" kvs).getD (Json.str "Default response from API"))
  | j => .error ("'" ++ pyTypeName j ++ "' object has no attribute 'get'")

/-- `{"role": "user", "content": message}` (line 90). -/
def userMsg (content : Json) : Json :=
  Json.obj [("role", Json.str "user"), ("content", content)]

/-- `{"role": "assistant", "content": assistant_response}` (line 98). -/
def assistantMsg (content : Json) : Json :=
  Json.obj [("role", Json.str "assistant"), ("content", content)]

/-- The body of the `try` block of `lambda_handler` (lines 77–113), as the
sequence of fallible steps the Python code performs, in source order.
Returns the assistant response together with the final message list. -/
def handlerCore (env : Option String) (net : HttpRequest → ApiOutcome)
    (event : Event) : Except String (Json × List Json) :=
  match readClaims event.authorizer with
  | .error e => .error e
  | .ok _ =>
    match readBody event.body with
    | .error e => .error e
    | .ok (Json.obj kvs) =>
      (match getMessage kvs with
       | .error e => .error e
       | .ok message =>
         match getHistory kvs with
         | .error e => .error e
         | .ok history =>
           match call_external_api env net with
           | .error e => .error e
           | .ok ext =>
             if ext.falsy then .error "No response from external API"
             else
               match getAssistant ext with
               | .error e => .error e
               | .ok assistant =>
                 .ok (assistant, (history ++ [userMsg message]) ++ [assistantMsg assistant]))
    | .ok j => .error (indexTypeErrorMsg j)

/-- The 200 response (lines 101–113). -/
def ok200 (assistant : Json) (messages : List Json) : HandlerResult :=
  { statusCode := 200
    headers :=
      [("Content-Type", "application/json"),
       ("Access-Control-Allow-Origin", "*"),
       ("Access-Control-Allow-Headers", "Content-Type,X-Amz-Date,Authorization,X-Api-Key,X-Amz-Security-Token"),
       ("Access-Control-Allow-Methods", "OPTIONS,POST")]
    body := Json.obj [("success", Json.bool true), ("response", assistant),
                      ("conversationHistory", Json.arr messages)] }

/-- The 500 response built in the `except` block (lines 115–129). -/
def err500 (e : String) : HandlerResult :=
  { statusCode := 500
    headers :=
      [("Content-Type", "application/json"),
       ("Access-Control-Allow-Origin", "*"),
       ("Access-Control-Allow-Headers", "Content-Type,X-Amz-Date,Authorization,X-Api-Key,X-Amz-Security-Token"),
       ("Access-Control-Allow-Methods", "OPTIONS,POST")]
    body := Json.obj [("success", Json.bool false), ("error", Json.str e)] }

/-- `lambda_handler(event, context)` (lines 76–129): the `try` body with the
top-level `except Exception` converting any failure into the 500 shape. -/
def lambda_handler (env : Option String) (net : HttpRequest → ApiOutcome)
    (event : Event) : HandlerResult :=
  match handlerCore env net event with
  | .ok (assistant, messages) => ok200 assistant messages
  | .error e => err500 e

/-! ## Concrete inputs for witnesses and counterexamples -/

/-- A parsed inbound body `{"message": "hi"}` with no history. -/
def evBody0 : Option (Except String Json) :=
  some (Except.ok (Json.obj [("message", Json.str "hi")]))

/-- An event with no authorization context and body `{"message": "hi"}`. -/
def evNoAuth : Event := { authorizer := none, body := evBody0 }

/-- An event whose `requestContext.authorizer` is present but has no
`claims` key. -/
def evAuthNoClaims : Event := { authorizer := some none, body := evBody0 }

/-- An event whose body fails `json.loads`. -/
def evBadBody : Event :=
  { authorizer := none
    body := some (Except.error "Expecting value: line 1 column 1 (char 0)") }

/-- A network returning 2xx with body `{"response": "hello"}`. -/
def netHello : HttpRequest → ApiOutcome :=
  fun _ => ApiOutcome.ok (some (Json.obj [("response", Json.str "hello")]))

/-- A second, definitionally distinct network equal to `netHello` pointwise. -/
def netHelloDup : HttpRequest → ApiOutcome :=
  fun _ => ApiOutcome.ok (some (Json.obj [("response", Json.str "hello")]))

/-- A network returning 2xx with the empty JSON object body. -/
def netEmptyObj : HttpRequest → ApiOutcome :=
  fun _ => ApiOutcome.ok (some (Json.obj []))

/-- A network returning 2xx with a nonempty object lacking `response`. -/
def netNoResp : HttpRequest → ApiOutcome :=
  fun _ => ApiOutcome.ok (some (Json.obj [("other", Json.num 1)]))

/-- A network answering every request with HTTP 422 and body
`{"detail":"bad"}`. -/
def net422 : HttpRequest → ApiOutcome :=
  fun _ => ApiOutcome.httpError 422 (some "\x7b\"detail\":\"bad\"\x7d")

/-! ## Helper lemmas -/

/-- On an event that passes the claims block and whose body parses to a dict
with a `message` key and a usable history, `handlerCore` reduces to the
external-call tail of the computation. -/
lemma handlerCore_valid (env : Option String) (net : HttpRequest → ApiOutcome)
    (event : Event) (kvs : List (String × Json)) (m : Json) (hist : List Json)
    (hauth : readClaims event.authorizer = Except.ok ())
    (hbody : event.body = some (Except.ok (Json.obj kvs)))
    (hmsg : jlookup "message" kvs = some m)
    (hhist : getHistory kvs = Except.ok hist) :
    handlerCore env net event =
      match call_external_api env net with
      | .error e => .error e
      | .ok ext =>
        if ext.falsy then .error "No response from external API"
        else
          match getAssistant ext with
          | .error e => .error e
          | .ok assistant =>
            .ok (assistant, (hist ++ [userMsg m]) ++ [assistantMsg assistant]) := by
  simp only [handlerCore, hauth, hbody, readBody, getMessage, hmsg, hhist]

/-! ## Claims -/

/-- C2: for every input event and every outcome of the external call,
`lambda_handler` returns a `HandlerResult` (it is a total function of the
embedding) and every run is either the 200 success shape or the uniform
500 shape `{success: false, error: <message>}` — no category-specific
status mapping, no propagated exception. -/
theorem claim_c2_total_and_uniform_500 (env : Option String)
    (net : HttpRequest → ApiOutcome) (event : Event) :
    (∃ a msgs, lambda_handler env net event = ok200 a msgs) ∨
    ∃ e, lambda_handler env net event =
      { statusCode := 500
        headers :=
          [("Content-Type", "application/json"),
           ("Access-Control-Allow-Origin", "*"),
           ("Access-Control-Allow-Headers", "Content-Type,X-Amz-Date,Authorization,X-Api-Key,X-Amz-Security-Token"),
           ("Access-Control-Allow-Methods", "OPTIONS,POST")]
        body := Json.obj [("success", Json.bool false), ("error", Json.str e)] } := by
  unfold lambda_handler
  cases h : handlerCore env net event with
  | ok p =>
    obtain ⟨a, m⟩ := p
    exact Or.inl ⟨a, m, rfl⟩
  | error e => exact Or.inr ⟨e, rfl⟩

/-- C5: every result of `lambda_handler`, 200 or 500, carries exactly the
four fixed CORS/content-type headers with their literal values. -/
theorem claim_c5_cors_headers (env : Option String)
    (net : HttpRequest → ApiOutcome) (event : Event) :
    (lambda_handler env net event).headers =
      [("Content-Type", "application/json"),
       ("Access-Control-Allow-Origin", "*"),
       ("Access-Control-Allow-Headers", "Content-Type,X-Amz-Date,Authorization,X-Api-Key,X-Amz-Security-Token"),
       ("Access-Control-Allow-Methods", "OPTIONS,POST")] := by
  unfold lambda_handler
  cases h : handlerCore env net event with
  | ok p => obtain ⟨a, m⟩ := p; rfl
  | error e => rfl

/-- C4: for every base URL, the one request `call_external_api` builds is a
POST to the base URL with trailing slashes stripped plus `/generate`, with
the `Content-Type: application/json` header and the constant payload
`{"message": "From Lambda"}` (no caller message appears — the function has
no message parameter); moreover the result depends on the network only
through its answer to that single request. -/
theorem claim_c4_fixed_request (base : String) :
    (externalRequest base).method = "POST" ∧
    (externalRequest base).headers = [("Content-Type", "application/json")] ∧
    (externalRequest base).payload = Json.obj [("message", Json.str "From Lambda")] ∧
    (externalRequest base).url =
      ((base.toList.reverse.dropWhile (fun c => c = '/')).reverse).asString ++ "/generate" ∧
    ∀ net net', net (externalRequest base) = net' (externalRequest base) →
      call_external_api (some base) net = call_external_api (some base) net' := by
  refine ⟨rfl, rfl, rfl, rfl, ?_⟩
  intro net net' h
  unfold call_external_api
  by_cases hb : base = ""
  · simp [hb]
  · simp only [if_neg hb, h]

/-- Witness for C4 at `base = "http://x//"`: the URL strips both trailing
slashes, and two distinct networks agreeing on the request give one result. -/
theorem claim_c4_fixed_request_witness :
    (externalRequest "http://x//").url = "http://x/generate" ∧
    call_external_api (some "http://x//") netHello =
      call_external_api (some "http://x//") netHelloDup := by
  obtain ⟨-, -, -, h4, h5⟩ := claim_c4_fixed_request "http://x//"
  exact ⟨by rw [h4]; decide, h5 netHello netHelloDup rfl⟩

/-- C6: with `NGROK_ENDPOINT` unset or empty, `call_external_api` fails with
the configuration error for every network (so no network call influences
the result), and `lambda_handler` returns statusCode 500 for every event. -/
theorem claim_c6_missing_endpoint (env : Option String)
    (h : env = none ∨ env = some "") :
    (∀ net, call_external_api env net = Except.error configMissingMsg) ∧
    ∀ net event, (lambda_handler env net event).statusCode = 500 := by
  have hcall : ∀ net, call_external_api env net = Except.error configMissingMsg := by
    intro net
    rcases h with h | h <;> rw [h] <;> simp [call_external_api]
  refine ⟨hcall, ?_⟩
  intro net event
  have herr : ∃ e, handlerCore env net event = Except.error e := by
    simp only [handlerCore, hcall]
    repeat' split
    all_goals exact ⟨_, rfl⟩
  obtain ⟨e, he⟩ := herr
  simp [lambda_handler, he, err500]

/-- Witness for C6: unset endpoint, a valid event, a healthy network. -/
theorem claim_c6_missing_endpoint_witness :
    call_external_api none netHello = Except.error configMissingMsg ∧
    (lambda_handler none netHello evNoAuth).statusCode = 500 := by
  obtain ⟨h1, h2⟩ := claim_c6_missing_endpoint none (Or.inl rfl)
  exact ⟨h1 netHello, h2 netHello evNoAuth⟩

/-- C1: on an event (with a well-formed optional authorization context, as
in the inbound interface) whose body parses to a dict with a string
`message` and an optional `conversationHistory` list (`getHistory kvs =
.ok hist` holds exactly when the key is absent, giving `hist = []`, or maps
to a list `hist`), if the external call returns 2xx with a JSON object
containing a string `response`, the handler returns 200 with body
`{success: true, response: <resp>, conversationHistory: hist ++ [user msg,
assistant resp]}` in that field order. -/
theorem claim_c1_success_path (env : Option String)
    (net : HttpRequest → ApiOutcome) (event : Event)
    (base : String) (kvs respKvs : List (String × Json))
    (msg resp : String) (hist : List Json)
    (hauth : readClaims event.authorizer = Except.ok ())
    (hbody : event.body = some (Except.ok (Json.obj kvs)))
    (hmsg : jlookup "message" kvs = some (Json.str msg))
    (hhist : getHistory kvs = Except.ok hist)
    (henv : env = some base) (hbase : base ≠ "")
    (hnet : net (externalRequest base) = ApiOutcome.ok (some (Json.obj respKvs)))
    (hresp : jlookup "response" respKvs = some (Json.str resp)) :
    lambda_handler env net event =
      ok200 (Json.str resp)
        (hist ++ [userMsg (Json.str msg), assistantMsg (Json.str resp)]) := by
  have hcall : call_external_api env net = Except.ok (Json.obj respKvs) := by
    rw [henv]
    simp only [call_external_api, if_neg hbase, hnet]
  have hne : respKvs ≠ [] := by
    intro hnil
    rw [hnil] at hresp
    exact Option.noConfusion hresp
  have hfalsy : (Json.obj respKvs).falsy = false := by
    cases respKvs with
    | nil => exact absurd rfl hne
    | cons a l => rfl
  have hassoc : (hist ++ [userMsg (Json.str msg)]) ++ [assistantMsg (Json.str resp)]
      = hist ++ [userMsg (Json.str msg), assistantMsg (Json.str resp)] := by
    simp
  unfold lambda_handler
  rw [handlerCore_valid env net event kvs (Json.str msg) hist hauth hbody hmsg hhist,
    hcall]
  simp only [hfalsy, Bool.false_eq_true, if_false, getAssistant, hresp, Option.getD_some,
    hassoc]

/-- Witness for C1 with no supplied history: the output history is exactly
the user turn then the assistant turn. -/
theorem claim_c1_success_path_witness :
    lambda_handler (some "https://abc.ngrok.io/") netHello evNoAuth =
      ok200 (Json.str "hello")
        [userMsg (Json.str "hi"), assistantMsg (Json.str "hello")] :=
  claim_c1_success_path (some "https://abc.ngrok.io/") netHello evNoAuth
    "https://abc.ngrok.io/" [("message", Json.str "hi")]
    [("response", Json.str "hello")] "hi" "hello" []
    rfl rfl rfl rfl rfl (by decide) rfl rfl

/-- C3 counterexample: a 2xx external response whose body is the empty JSON
object `{}` (which the claim explicitly includes) makes the handler raise
`"No response from external API"` (the `if not external_response:` check on
line 93 treats the empty dict as falsy), so it returns 500, not 200. -/
theorem claim_c3_empty_object_counterexample :
    lambda_handler (some "http://h") netEmptyObj evNoAuth =
      err500 "No response from external API" ∧
    (lambda_handler (some "http://h") netEmptyObj evNoAuth).statusCode ≠ 200 :=
  ⟨rfl, by decide⟩

/-- C3 (amended): for every 2xx external response whose body parses to a
NONEMPTY JSON object without a `response` key, the handler uses the
placeholder `"Default response from API"` as the assistant response and
returns 200.  (The empty object `{}` instead trips the falsiness check and
yields 500.) -/
theorem claim_c3_default_response (env : Option String)
    (net : HttpRequest → ApiOutcome) (event : Event)
    (base : String) (kvs respKvs : List (String × Json))
    (m : Json) (hist : List Json)
    (hauth : readClaims event.authorizer = Except.ok ())
    (hbody : event.body = some (Except.ok (Json.obj kvs)))
    (hmsg : jlookup "message" kvs = some m)
    (hhist : getHistory kvs = Except.ok hist)
    (henv : env = some base) (hbase : base ≠ "")
    (hnet : net (externalRequest base) = ApiOutcome.ok (some (Json.obj respKvs)))
    (hne : respKvs ≠ [])
    (hnoresp : jlookup "response" respKvs = none) :
    lambda_handler env net event =
      ok200 (Json.str "Default response from API")
        (hist ++ [userMsg m, assistantMsg (Json.str "Default response from API")]) := by
  have hcall : call_external_api env net = Except.ok (Json.obj respKvs) := by
    rw [henv]
    simp only [call_external_api, if_neg hbase, hnet]
  have hfalsy : (Json.obj respKvs).falsy = false := by
    cases respKvs with
    | nil => exact absurd rfl hne
    | cons a l => rfl
  have hassoc : (hist ++ [userMsg m]) ++ [assistantMsg (Json.str "Default response from API")]
      = hist ++ [userMsg m, assistantMsg (Json.str "Default response from API")] := by
    simp
  unfold lambda_handler
  rw [handlerCore_valid env net event kvs m hist hauth hbody hmsg hhist, hcall]
  simp only [hfalsy, Bool.false_eq_true, if_false, getAssistant, hnoresp, Option.getD_none,
    hassoc]

/-- Witness for the amended C3 at the nonempty object `{"other": 1}`. -/
theorem claim_c3_default_response_witness :
    lambda_handler (some "http://h") netNoResp evNoAuth =
      ok200 (Json.str "Default response from API")
        [userMsg (Json.str "hi"), assistantMsg (Json.str "Default response from API")] :=
  claim_c3_default_response (some "http://h") netNoResp evNoAuth
    "http://h" [("message", Json.str "hi")] [("other", Json.num 1)]
    (Json.str "hi") []
    rfl rfl rfl rfl rfl (by decide) rfl (List.cons_ne_nil _ _) rfl

/-- The failure `lambda_handler` hits on lines 83–84 for a given event:
`json.loads` raising on the body (its message propagates), or the parsed
dict lacking the `message` key (`str(KeyError('message'))` is
`"'message'"`).  `none` when neither failure occurs. -/
def bodyFailureMsg (event : Event) : Option String :=
  match event.body with
  | some (.error e) => some e
  | some (.ok (Json.obj kvs)) =>
    match jlookup "message" kvs with
    | none => some "'message'"
    | some _ => none
  | _ => none

/-- C7: on an event (passing the claims block) whose body is not valid JSON
or whose parsed body lacks `message`, the handler returns 500 with
`success: false` and the corresponding failure message, and the result is
the same for every network — the external API is never consulted. -/
theorem claim_c7_bad_body (env : Option String)
    (net net' : HttpRequest → ApiOutcome) (event : Event) (e : String)
    (hauth : readClaims event.authorizer = Except.ok ())
    (hfail : bodyFailureMsg event = some e) :
    lambda_handler env net event = err500 e ∧
    lambda_handler env net event = lambda_handler env net' event := by
  unfold bodyFailureMsg at hfail
  match hb : event.body with
  | none =>
    rw [hb] at hfail
    exact Option.noConfusion hfail
  | some (.error e') =>
    rw [hb] at hfail
    obtain rfl : e' = e := Option.some.inj hfail
    constructor <;> simp [lambda_handler, handlerCore, hauth, hb, readBody]
  | some (.ok j) =>
    rw [hb] at hfail
    match j with
    | Json.obj kvs =>
      simp only at hfail
      match hm : jlookup "message" kvs with
      | none =>
        rw [hm] at hfail
        obtain rfl : "'message'" = e := Option.some.inj hfail
        constructor <;>
          simp [lambda_handler, handlerCore, hauth, hb, readBody, getMessage, hm]
      | some v =>
        rw [hm] at hfail
        exact Option.noConfusion hfail
    | Json.null => exact Option.noConfusion hfail
    | Json.bool b => exact Option.noConfusion hfail
    | Json.num n => exact Option.noConfusion hfail
    | Json.str s => exact Option.noConfusion hfail
    | Json.arr l => exact Option.noConfusion hfail

/-- Witness for C7: a body that fails `json.loads`, two different networks. -/
theorem claim_c7_bad_body_witness :
    lambda_handler (some "http://h") netHello evBadBody =
      err500 "Expecting value: line 1 column 1 (char 0)" ∧
    lambda_handler (some "http://h") netHello evBadBody =
      lambda_handler (some "http://h") net422 evBadBody :=
  claim_c7_bad_body (some "http://h") netHello net422 evBadBody
    "Expecting value: line 1 column 1 (char 0)" rfl rfl

/-- C8: a non-2xx status from the external API makes `call_external_api`
raise the single HTTP-failure message carrying the status and the body
text (a fixed placeholder when the body could not be read), the message
literally contains the status rendered in decimal, and `lambda_handler`
turns it into the 500 error shape with that message.  The formula is the
same for every status code — 422 gets no special handling beyond an extra
log line. -/
theorem claim_c8_http_error (base : String) (net : HttpRequest → ApiOutcome)
    (event : Event) (code : Nat) (errBody : Option String)
    (kvs : List (String × Json)) (m : Json) (hist : List Json)
    (hbase : base ≠ "")
    (hnet : net (externalRequest base) = ApiOutcome.httpError code errBody)
    (hauth : readClaims event.authorizer = Except.ok ())
    (hbody : event.body = some (Except.ok (Json.obj kvs)))
    (hmsg : jlookup "message" kvs = some m)
    (hhist : getHistory kvs = Except.ok hist) :
    call_external_api (some base) net = Except.error (httpFailureMsg code errBody) ∧
    (∃ s t, httpFailureMsg code errBody = s ++ toString code ++ t) ∧
    lambda_handler (some base) net event = err500 (httpFailureMsg code errBody) := by
  have hcall : call_external_api (some base) net
      = Except.error (httpFailureMsg code errBody) := by
    simp only [call_external_api, if_neg hbase, hnet]
  refine ⟨hcall, ⟨"外部API呼び出しに失敗しました (HTTP ",
    "): " ++ errBody.getD "(レスポンスボディの読み取りに失敗)", by
      simp [httpFailureMsg, String.append_assoc]⟩, ?_⟩
  unfold lambda_handler
  rw [handlerCore_valid (some base) net event kvs m hist hauth hbody hmsg hhist, hcall]

/-- Witness for C8 at status 422 with body `{"detail":"bad"}`. -/
theorem claim_c8_http_error_witness :
    call_external_api (some "http://h") net422 =
      Except.error (httpFailureMsg 422 (some "\x7b\"detail\":\"bad\"\x7d")) ∧
    (∃ s t, httpFailureMsg 422 (some "\x7b\"detail\":\"bad\"\x7d") = s ++ toString 422 ++ t) ∧
    lambda_handler (some "http://h") net422 evNoAuth =
      err500 (httpFailureMsg 422 (some "\x7b\"detail\":\"bad\"\x7d")) :=
  claim_c8_http_error "http://h" net422 evNoAuth 422
    (some "\x7b\"detail\":\"bad\"\x7d") [("message", Json.str "hi")]
    (Json.str "hi") [] (by decide) rfl rfl rfl rfl rfl

/-- C9 counterexample: two events identical except for the PRESENCE of
`requestContext.authorizer.claims` do not always get the same response:
when `authorizer` is present without a `claims` key, line 80 raises
`KeyError('claims')` and the handler returns 500, while the same event
without the authorization context returns 200 (same body, same healthy
network). -/
theorem claim_c9_claims_presence_counterexample :
    (lambda_handler (some "http://h") netHello evAuthNoClaims).statusCode ≠
      (lambda_handler (some "http://h") netHello evNoAuth).statusCode := by
  decide

/-- C9 (amended): for every pair of events sharing the same body whose
authorization context is well formed — absent, or carrying a `claims`
mapping — the handler returns the same statusCode, headers and body
whatever the claims contain: claims are read only for logging. -/
theorem claim_c9_claims_noninterference (env : Option String)
    (net : HttpRequest → ApiOutcome) (b : Option (Except String Json))
    (a₁ a₂ : Option (Option Json))
    (h₁ : readClaims a₁ = Except.ok ()) (h₂ : readClaims a₂ = Except.ok ()) :
    lambda_handler env net { authorizer := a₁, body := b } =
      lambda_handler env net { authorizer := a₂, body := b } := by
  simp only [lambda_handler, handlerCore, h₁, h₂]

/-- Witness for the amended C9: no context versus a claims mapping with an
email — identical responses. -/
theorem claim_c9_claims_noninterference_witness :
    lambda_handler (some "http://h") netHello { authorizer := none, body := evBody0 } =
      lambda_handler (some "http://h") netHello
        { authorizer := some (some (Json.obj [("email", Json.str "user@example.com")]))
          body := evBody0 } :=
  claim_c9_claims_noninterference (some "http://h") netHello evBody0
    none (some (some (Json.obj [("email", Json.str "user@example.com")]))) rfl rfl

/-! ## Heap model of the list manipulation (claim C10)

Python lists are mutable heap objects.  Lines 89–98 of the handler read

  `messages = conversation_history.copy()`
  `messages.append({"role": "user", "content": message})`
  …
  `messages.append({"role": "assistant", "content": assistant_response})`

so the caller-supplied list is only read; both appends mutate the fresh
copy.  `PyHeap` gives list objects their identity (a cell index), `.copy()`
allocates, `.append` mutates in place, and the frame claim becomes: the
cell holding the caller's history is untouched. -/

/-- A heap of Python list objects (each cell one list). -/
structure PyHeap where
  cells : List (List Json)

/-- Dereference a list object (the default is irrelevant: all references
used are in range). -/
def PyHeap.read (h : PyHeap) (r : Nat) : List Json := (h.cells[r]?).getD []

/-- Overwrite the contents of a list object, in place. -/
def PyHeap.write (h : PyHeap) (r : Nat) (v : List Json) : PyHeap := ⟨h.cells.set r v⟩

/-- Allocate a fresh list object, returning its reference. -/
def PyHeap.alloc (h : PyHeap) (v : List Json) : Nat × PyHeap :=
  (h.cells.length, ⟨h.cells ++ [v]⟩)

/-- `list.copy()`: allocate a fresh list with the same elements. -/
def listCopy (h : PyHeap) (r : Nat) : Nat × PyHeap := h.alloc (h.read r)

/-- `list.append(v)`: mutate the referenced list in place. -/
def listAppend (h : PyHeap) (r : Nat) (v : Json) : PyHeap :=
  h.write r (h.read r ++ [v])

/-- Lines 89, 90 and 98 at heap level: copy the history, append the user
turn, append the assistant turn; return the reference to `messages`. -/
def buildMessagesHeap (h : PyHeap) (histRef : Nat) (message assistant : Json) :
    Nat × PyHeap :=
  let (messagesRef, h₁) := listCopy h histRef
  let h₂ := listAppend h₁ messagesRef (userMsg message)
  let h₃ := listAppend h₂ messagesRef (assistantMsg assistant)
  (messagesRef, h₃)

/-- C10: building the outgoing message list leaves the caller's history
object unchanged — `messages` is a fresh object (its reference differs from
the history's), the history cell still holds its original elements in
their original order, and the fresh cell holds history ++ user ++ assistant. -/
theorem claim_c10_history_not_mutated (h : PyHeap) (r : Nat) (m a : Json)
    (hr : r < h.cells.length) :
    (buildMessagesHeap h r m a).1 ≠ r ∧
    ((buildMessagesHeap h r m a).2).read r = h.read r ∧
    ((buildMessagesHeap h r m a).2).read (buildMessagesHeap h r m a).1 =
      h.read r ++ [userMsg m, assistantMsg a] := by
  have hne : h.cells.length ≠ r := (Nat.ne_of_lt hr).symm
  have hcat : (h.cells ++ [h.read r])[h.cells.length]? = some (h.read r) :=
    List.getElem?_concat_length _ _
  simp only [buildMessagesHeap, listCopy, listAppend, PyHeap.alloc, PyHeap.read,
    PyHeap.write]
  refine ⟨hne, ?_, ?_⟩
  · rw [List.getElem?_set_ne hne, List.getElem?_set_ne hne,
      List.getElem?_append_left hr]
  · rw [show (h.cells[r]?).getD [] = h.read r from rfl, hcat, Option.getD_some]
    have hlen : h.cells.length < (h.cells ++ [h.read r]).length := by simp
    have hlen' : h.cells.length <
        ((h.cells ++ [h.read r]).set h.cells.length (h.read r ++ [userMsg m])).length := by
      rw [List.length_set]
      exact hlen
    rw [List.getElem?_set_eq_of_lt _ hlen', Option.getD_some,
      List.getElem?_set_eq_of_lt _ hlen, Option.getD_some, List.append_assoc]
    rfl

/-- Witness for C10: a one-cell heap holding the history `[{"role":"user",
"content":"x"}]`. -/
theorem claim_c10_history_not_mutated_witness :
    (buildMessagesHeap ⟨[[userMsg (Json.str "x")]]⟩ 0 (Json.str "hi") (Json.str "hello")).1 ≠ 0 ∧
    ((buildMessagesHeap ⟨[[userMsg (Json.str "x")]]⟩ 0 (Json.str "hi") (Json.str "hello")).2).read 0 =
      PyHeap.read ⟨[[userMsg (Json.str "x")]]⟩ 0 ∧
    ((buildMessagesHeap ⟨[[userMsg (Json.str "x")]]⟩ 0 (Json.str "hi") (Json.str "hello")).2).read
        (buildMessagesHeap ⟨[[userMsg (Json.str "x")]]⟩ 0 (Json.str "hi") (Json.str "hello")).1 =
      PyHeap.read ⟨[[userMsg (Json.str "x")]]⟩ 0 ++
        [userMsg (Json.str "hi"), assistantMsg (Json.str "hello")] :=
  claim_c10_history_not_mutated ⟨[[userMsg (Json.str "x")]]⟩ 0 (Json.str "hi")
    (Json.str "hello") (by decide)

end SimpleChat
